import Mathlib

/-! Cinder-Bullet3D motion states

A shallow embedding of `src/Cinder-Bullet3D/OpenGLMotionState.h`: the four motion
state classes `SimpleGlDynamicMotionState`, `SimpleGlKinematicMotionState`,
`DynamicMotionState<T>` and `KinematicMotionState<T>`, all deriving from
`PhyObjMotionState`, which itself derives from Bullet's `btDefaultMotionState`.

Conventions of the embedding.

* `btScalar` is an arbitrary ring `S` (exact arithmetic, no rounding, no NaN).
* An object is the record of its fields; a member function is a function from the
  record (and its arguments) to the new record and/or the value it hands back.
* `void *m_userPointer` is an address (`Nat`, `0` is the null pointer) into a heap
  `Nat → Option T` of external nodes; dereferencing an address that holds no node
  is undefined behaviour and is modelled by `none`.
* The external node type `T` of the linked classes is a template parameter; it is
  a type parameter here and its four member functions are the fields of `NodeOps`.
* `fromBullet` / `toBullet` (declared in `Cinder-Bullet3D/Common.h`) and Bullet's
  quaternion/basis conversions are parameters, collected in `Interop`.
-/

namespace bullet

/-! ## Bullet linear math -/

/-- Modelled from the spec: Bullet's `btVector3`, a library type not under `src/`
(the unused fourth lane is not represented). -/
structure btVector3 (S : Type) where
  x : S
  y : S
  z : S
deriving DecidableEq, Repr

/-- Modelled from the spec: Bullet's `btQuaternion`, a library type not under
`src/`. -/
structure btQuaternion (S : Type) where
  x : S
  y : S
  z : S
  w : S
deriving DecidableEq, Repr

/-- Modelled from the spec: Bullet's `btMatrix3x3`, a library type not under `src/`:
the three rows `m_el[0]`, `m_el[1]`, `m_el[2]` of the rotation. -/
structure btMatrix3x3 (S : Type) where
  el0 : btVector3 S
  el1 : btVector3 S
  el2 : btVector3 S
deriving DecidableEq, Repr

/-- Modelled from the spec: Bullet's `btTransform`, a library type not under `src/`:
"a rigid 3D pose (translation + rotation)". -/
structure btTransform (S : Type) where
  m_basis : btMatrix3x3 S
  m_origin : btVector3 S
deriving DecidableEq, Repr

section LinearMath

variable {S : Type} [Ring S]

/-- Modelled from the spec: Bullet's linear math (not under `src/`),
the method `btVector3::dot`. -/
def btVector3.dot (a v : btVector3 S) : S :=
  a.x * v.x + a.y * v.y + a.z * v.z

/-- Modelled from the spec: Bullet's linear math (not under `src/`),
unary minus on `btVector3`. -/
def btVector3.neg (v : btVector3 S) : btVector3 S :=
  ⟨-v.x, -v.y, -v.z⟩

/-- Modelled from the spec: Bullet's linear math (not under `src/`),
the sum of two `btVector3`. -/
def btVector3.add (a b : btVector3 S) : btVector3 S :=
  ⟨a.x + b.x, a.y + b.y, a.z + b.z⟩

/-- Modelled from the spec: Bullet's linear math (not under `src/`),
the method `btMatrix3x3::tdotx`: first column dotted with `v`. -/
def btMatrix3x3.tdotx (m : btMatrix3x3 S) (v : btVector3 S) : S :=
  m.el0.x * v.x + m.el1.x * v.y + m.el2.x * v.z

/-- Modelled from the spec: Bullet's linear math (not under `src/`),
the method `btMatrix3x3::tdoty`: second column dotted with `v`. -/
def btMatrix3x3.tdoty (m : btMatrix3x3 S) (v : btVector3 S) : S :=
  m.el0.y * v.x + m.el1.y * v.y + m.el2.y * v.z

/-- Modelled from the spec: Bullet's linear math (not under `src/`),
the method `btMatrix3x3::tdotz`: third column dotted with `v`. -/
def btMatrix3x3.tdotz (m : btMatrix3x3 S) (v : btVector3 S) : S :=
  m.el0.z * v.x + m.el1.z * v.y + m.el2.z * v.z

/-- Modelled from the spec: Bullet's linear math (not under `src/`),
the matrix product `m1 * m2` of `btMatrix3x3`. -/
def btMatrix3x3.mul (m1 m2 : btMatrix3x3 S) : btMatrix3x3 S :=
  ⟨⟨m2.tdotx m1.el0, m2.tdoty m1.el0, m2.tdotz m1.el0⟩,
   ⟨m2.tdotx m1.el1, m2.tdoty m1.el1, m2.tdotz m1.el1⟩,
   ⟨m2.tdotx m1.el2, m2.tdoty m1.el2, m2.tdotz m1.el2⟩⟩

/-- Modelled from the spec: Bullet's linear math (not under `src/`),
the matrix-vector product `m * v`. -/
def btMatrix3x3.mulVec (m : btMatrix3x3 S) (v : btVector3 S) : btVector3 S :=
  ⟨m.el0.dot v, m.el1.dot v, m.el2.dot v⟩

/-- Modelled from the spec: Bullet's linear math (not under `src/`),
the method `btMatrix3x3::transpose`. -/
def btMatrix3x3.transpose (m : btMatrix3x3 S) : btMatrix3x3 S :=
  ⟨⟨m.el0.x, m.el1.x, m.el2.x⟩,
   ⟨m.el0.y, m.el1.y, m.el2.y⟩,
   ⟨m.el0.z, m.el1.z, m.el2.z⟩⟩

/-- Modelled from the spec: Bullet's linear math (not under `src/`),
the identity basis `btMatrix3x3::getIdentity`. -/
def btMatrix3x3.getIdentity : btMatrix3x3 S :=
  ⟨⟨1, 0, 0⟩, ⟨0, 1, 0⟩, ⟨0, 0, 1⟩⟩

/-- Modelled from the spec: Bullet's linear math (not under `src/`),
the identity transform `btTransform::getIdentity`. -/
def btTransform.getIdentity : btTransform S :=
  ⟨btMatrix3x3.getIdentity, ⟨0, 0, 0⟩⟩

/-- Modelled from the spec: Bullet's linear math (not under `src/`),
the call operator `btTransform::operator()`: the transform applied to a point. -/
def btTransform.apply (t : btTransform S) (p : btVector3 S) : btVector3 S :=
  (t.m_basis.mulVec p).add t.m_origin

/-- Modelled from the spec: Bullet's linear math (not under `src/`),
the product `t1 * t2` of `btTransform`. -/
def btTransform.mul (t1 t2 : btTransform S) : btTransform S :=
  ⟨t1.m_basis.mul t2.m_basis, t1.apply t2.m_origin⟩

/-- Modelled from the spec: Bullet's linear math (not under `src/`),
the method `btTransform::inverse`. -/
def btTransform.inverse (t : btTransform S) : btTransform S :=
  ⟨t.m_basis.transpose, t.m_basis.transpose.mulVec t.m_origin.neg⟩

/-- Modelled from the spec: Bullet's linear math (not under `src/`),
the method `btTransform::setOrigin`. -/
def btTransform.setOrigin (t : btTransform S) (origin : btVector3 S) : btTransform S :=
  { t with m_origin := origin }

/-- Modelled from the spec: Bullet's linear math (not under `src/`),
the method `btTransform::getOrigin`. -/
def btTransform.getOrigin (t : btTransform S) : btVector3 S :=
  t.m_origin

end LinearMath

/-! ## The default motion state of the physics engine -/

/-- Modelled from the spec: Bullet's `btDefaultMotionState`, the base class that
`PhyObjMotionState` inherits from, is not part of `OpenGLMotionState.h`.  It holds
the cached transform `m_graphicsWorldTrans`, a centre-of-mass offset, the start
transform and the untyped user pointer. -/
structure btDefaultMotionState (S : Type) where
  m_graphicsWorldTrans : btTransform S
  m_centerOfMassOffset : btTransform S
  m_startWorldTrans : btTransform S
  m_userPointer : Nat
deriving DecidableEq, Repr

section DefaultMotionState

variable {S : Type} [Ring S]

/-- Modelled from the spec: the constructor of `btDefaultMotionState`
(Bullet, not under `src/`), `btDefaultMotionState(startTrans, centerOfMassOffset)`;
the user pointer starts out null. -/
def btDefaultMotionState.new (startTrans centerOfMassOffset : btTransform S) :
    btDefaultMotionState S :=
  { m_graphicsWorldTrans := startTrans
    m_centerOfMassOffset := centerOfMassOffset
    m_startWorldTrans := startTrans
    m_userPointer := 0 }

/-- Modelled from the spec: `btDefaultMotionState::getWorldTransform` (Bullet, not
under `src/`): "returns the cached Transform", which Bullet reports relative to the
centre of mass, `m_graphicsWorldTrans * m_centerOfMassOffset.inverse()`.  The
output argument is assigned as a whole, so the value assigned is the result. -/
def btDefaultMotionState.getWorldTransform (self : btDefaultMotionState S) :
    btTransform S :=
  self.m_graphicsWorldTrans.mul self.m_centerOfMassOffset.inverse

/-- Modelled from the spec: `btDefaultMotionState::setWorldTransform` (Bullet, not
under `src/`): "overwrites the cached Transform", with
`centerOfMassWorldTrans * m_centerOfMassOffset`. -/
def btDefaultMotionState.setWorldTransform (self : btDefaultMotionState S)
    (centerOfMassWorldTrans : btTransform S) : btDefaultMotionState S :=
  { self with m_graphicsWorldTrans := centerOfMassWorldTrans.mul self.m_centerOfMassOffset }

end DefaultMotionState

/-! ## OpenGL matrices -/

/-- Modelled from the spec: Cinder's `ci::Matrix44` ("the rendering layer's matrix
layout"), a library type not under `src/`: sixteen scalars `m[0..15]`,
column-major. -/
structure Matrix44 (S : Type) where
  m : Fin 16 → S

section OpenGL

variable {S : Type} [Ring S]

/-- Modelled from the spec: Bullet's `btTransform::getOpenGLMatrix` (not under
`src/`, with `btMatrix3x3::getOpenGLSubMatrix` inlined), the conversion "into the
rendering layer's matrix layout": every one of the sixteen slots of the array is
assigned, the basis column by column, then the translation. -/
def btTransform.getOpenGLMatrix (t : btTransform S) : Fin 16 → S :=
  ![t.m_basis.el0.x, t.m_basis.el1.x, t.m_basis.el2.x, 0,
    t.m_basis.el0.y, t.m_basis.el1.y, t.m_basis.el2.y, 0,
    t.m_basis.el0.z, t.m_basis.el1.z, t.m_basis.el2.z, 0,
    t.m_origin.x, t.m_origin.y, t.m_origin.z, 1]

/-- Modelled from the spec: the way back from the matrix form, which
`OpenGLMotionState.h` does not contain: the translation is read from elements
12..14 and the rotation basis from the upper-left 3x3 block, column by column (this
is Bullet's `btTransform::setFromOpenGLMatrix`). -/
def btTransform.setFromOpenGLMatrix (m : Fin 16 → S) : btTransform S :=
  ⟨⟨⟨m 0, m 4, m 8⟩, ⟨m 1, m 5, m 9⟩, ⟨m 2, m 6, m 10⟩⟩, ⟨m 12, m 13, m 14⟩⟩

/-- Modelled from the spec: Cinder's
`Matrix44::set( const T *dt, bool srcIsRowMajor = false )` (not under `src/`): a
plain copy of the sixteen values. -/
def Matrix44.set (_self : Matrix44 S) (dt : Fin 16 → S) : Matrix44 S :=
  ⟨dt⟩

end OpenGL

/-! ## PhyObjMotionState -/

/-- The class `PhyObjMotionState`: the inherited `btDefaultMotionState` fields plus
`mPosition` and the constant flag `mDynamic`. -/
structure PhyObjMotionState (S : Type) extends btDefaultMotionState S where
  mPosition : btTransform S
  mDynamic : Bool
deriving DecidableEq, Repr

section PhyObj

variable {S : Type} [Ring S]

/-- The protected constructor `PhyObjMotionState( transform, dynamic )`: the base is
built from `transform` alone, so the centre-of-mass offset is the default identity.
The member `mPosition` is not initialised here; `uninit` is whatever it holds. -/
def PhyObjMotionState.new (transform : btTransform S) (dynamic : Bool)
    (uninit : btTransform S) : PhyObjMotionState S :=
  { btDefaultMotionState.new transform btTransform.getIdentity with
    mPosition := uninit
    mDynamic := dynamic }

/-- The method `isDynamic`. -/
def PhyObjMotionState.isDynamic (self : PhyObjMotionState S) : Bool :=
  self.mDynamic

/-- The method `isKinematic`. -/
def PhyObjMotionState.isKinematic (self : PhyObjMotionState S) : Bool :=
  !self.mDynamic

/-- The method `setUserPointer`. -/
def PhyObjMotionState.setUserPointer (self : PhyObjMotionState S) (userPointer : Nat) :
    PhyObjMotionState S :=
  { self with m_userPointer := userPointer }

/-- The method `getUserPointer`. -/
def PhyObjMotionState.getUserPointer (self : PhyObjMotionState S) : Nat :=
  self.m_userPointer

/-- The inherited `btDefaultMotionState::setWorldTransform`, seen on the derived
object: only the base part changes. -/
def PhyObjMotionState.setWorldTransform (self : PhyObjMotionState S)
    (centerOfMassWorldTrans : btTransform S) : PhyObjMotionState S :=
  { self with
    tobtDefaultMotionState :=
      self.tobtDefaultMotionState.setWorldTransform centerOfMassWorldTrans }

/-- The inherited `btDefaultMotionState::getWorldTransform`, seen on the derived
object. -/
def PhyObjMotionState.getWorldTransform (self : PhyObjMotionState S) : btTransform S :=
  self.tobtDefaultMotionState.getWorldTransform

end PhyObj

/-! ## The two cached classes -/

section Simple

variable {S : Type} [Ring S]

/-- The constructor `SimpleGlDynamicMotionState( initialPosition )`: base built with
`dynamic = true`, then the body assigns `mPosition`. -/
def SimpleGlDynamicMotionState.new (initialPosition : btTransform S) :
    PhyObjMotionState S :=
  { PhyObjMotionState.new initialPosition true initialPosition with
    mPosition := initialPosition }

/-- The method `SimpleGlDynamicMotionState::getGLWorldTransform`: the local `trans`
is filled by `getWorldTransform`, turned into the array `m`, and `m` is copied into
the matrix behind the pointer argument. -/
def SimpleGlDynamicMotionState.getGLWorldTransform (self : PhyObjMotionState S)
    (transform : Matrix44 S) : Matrix44 S :=
  let trans := self.getWorldTransform
  let m := trans.getOpenGLMatrix
  transform.set m

/-- The constructor `SimpleGlKinematicMotionState( initialPosition )`: base built
with `dynamic = false`, then the body assigns `mPosition`. -/
def SimpleGlKinematicMotionState.new (initialPosition : btTransform S) :
    PhyObjMotionState S :=
  { PhyObjMotionState.new initialPosition false initialPosition with
    mPosition := initialPosition }

/-- The method `SimpleGlKinematicMotionState::setKinematicPos`. -/
def SimpleGlKinematicMotionState.setKinematicPos (self : PhyObjMotionState S)
    (trans : btTransform S) : PhyObjMotionState S :=
  { self with mPosition := trans }

/-- The method `SimpleGlKinematicMotionState::setWorldTransform`: an empty body. -/
def SimpleGlKinematicMotionState.setWorldTransform (self : PhyObjMotionState S)
    (_worldTrans : btTransform S) : PhyObjMotionState S :=
  self

/-- The method `SimpleGlKinematicMotionState::getWorldTransform`:
`worldTrans = mPosition`, the output argument is assigned as a whole. -/
def SimpleGlKinematicMotionState.getWorldTransform (self : PhyObjMotionState S) :
    btTransform S :=
  self.mPosition

end Simple


/-! ## The two linked classes -/

/-- The member functions that the linked classes call on the template parameter `T`
(the external scene-graph node).  `V` and `Q` are the vector and quaternion types of
the rendering layer.  A setter acts on the node it is called on and on nothing else;
a getter only observes. -/
structure NodeOps (T V Q : Type) where
  setGlobalTranslation : T → V → T
  setGlobalRotation : T → Q → T
  getGlobalTranslation : T → V
  getGlobalRotation : T → Q

/-- The getters of a node hand back what its setters last stored. -/
structure NodeOps.Lawful {T V Q : Type} (ops : NodeOps T V Q) : Prop where
  translation_set : ∀ n v, ops.getGlobalTranslation (ops.setGlobalTranslation n v) = v
  rotation_set : ∀ n q, ops.getGlobalRotation (ops.setGlobalRotation n q) = q
  translation_keep : ∀ n q,
    ops.getGlobalTranslation (ops.setGlobalRotation n q) = ops.getGlobalTranslation n
  rotation_keep : ∀ n v,
    ops.getGlobalRotation (ops.setGlobalTranslation n v) = ops.getGlobalRotation n

/-- The conversions used at the boundary and not defined in `OpenGLMotionState.h`:
the overloads of `fromBullet` and `toBullet` (from `Cinder-Bullet3D/Common.h`), and
Bullet's `btMatrix3x3::getRotation` (basis to quaternion) and
`btMatrix3x3::setRotation` (quaternion to basis, every entry of the basis is
assigned). -/
structure Interop (S V Q : Type) where
  fromBulletVec : btVector3 S → V
  fromBulletQuat : btQuaternion S → Q
  toBulletVec : V → btVector3 S
  toBulletQuat : Q → btQuaternion S
  basisGetRotation : btMatrix3x3 S → btQuaternion S
  basisSetRotation : btQuaternion S → btMatrix3x3 S

/-- The external nodes, by address. -/
abbrev Heap (T : Type) := Nat → Option T

/-- Dereferencing `static_cast<T*>(p)`: defined when `p` is not null and a node lives
at `p`. -/
def Heap.deref {T : Type} (heap : Heap T) (p : Nat) : Option T :=
  if p = 0 then none else heap p

/-- Storing a node back at address `p`. -/
def Heap.store {T : Type} (heap : Heap T) (p : Nat) (n : T) : Heap T :=
  fun a => if a = p then some n else heap a

section Linked

variable {S T V Q : Type} [Ring S]

/-- Modelled from the spec: Bullet's `btTransform::getRotation` (not under `src/`):
the quaternion of the basis. -/
def btTransform.getRotation (io : Interop S V Q) (t : btTransform S) : btQuaternion S :=
  io.basisGetRotation t.m_basis

/-- Modelled from the spec: Bullet's `btTransform::setRotation` (not under `src/`):
the basis is replaced by the one of the quaternion, the origin stays. -/
def btTransform.setRotation (io : Interop S V Q) (t : btTransform S)
    (q : btQuaternion S) : btTransform S :=
  { t with m_basis := io.basisSetRotation q }

/-- The constructor `DynamicMotionState<T>( initialPosition )`. -/
def DynamicMotionState.new (initialPosition : btTransform S) : PhyObjMotionState S :=
  { PhyObjMotionState.new initialPosition true initialPosition with
    mPosition := initialPosition }

/-- The method `DynamicMotionState<T>::setWorldTransform`: the node behind the user
pointer receives the translation, then the rotation; no member of the motion state
is assigned. -/
def DynamicMotionState.setWorldTransform (ops : NodeOps T V Q) (io : Interop S V Q)
    (self : PhyObjMotionState S) (heap : Heap T) (worldTransform : btTransform S) :
    Option (PhyObjMotionState S × Heap T) :=
  match heap.deref self.m_userPointer with
  | none => none
  | some transform =>
    let transform := ops.setGlobalTranslation transform
      (io.fromBulletVec worldTransform.getOrigin)
    let transform := ops.setGlobalRotation transform
      (io.fromBulletQuat (worldTransform.getRotation io))
    some (self, heap.store self.m_userPointer transform)

/-- The constructor `KinematicMotionState<T>( initialPosition )`. -/
def KinematicMotionState.new (initialPosition : btTransform S) : PhyObjMotionState S :=
  { PhyObjMotionState.new initialPosition false initialPosition with
    mPosition := initialPosition }

/-- The method `KinematicMotionState<T>::setKinematicPos`. -/
def KinematicMotionState.setKinematicPos (self : PhyObjMotionState S)
    (trans : btTransform S) : PhyObjMotionState S :=
  { self with mPosition := trans }

/-- The method `KinematicMotionState<T>::setWorldTransform`: an empty body. -/
def KinematicMotionState.setWorldTransform (self : PhyObjMotionState S)
    (_worldTrans : btTransform S) : PhyObjMotionState S :=
  self

/-- The method `KinematicMotionState<T>::getWorldTransform`: origin and rotation of
the output argument are set from the node behind the user pointer. -/
def KinematicMotionState.getWorldTransform (ops : NodeOps T V Q) (io : Interop S V Q)
    (self : PhyObjMotionState S) (heap : Heap T)
    (centerOfMassWorldTrans : btTransform S) : Option (btTransform S) :=
  match heap.deref self.m_userPointer with
  | none => none
  | some transform =>
    let centerOfMassWorldTrans := centerOfMassWorldTrans.setOrigin
      (io.toBulletVec (ops.getGlobalTranslation transform))
    let centerOfMassWorldTrans := centerOfMassWorldTrans.setRotation io
      (io.toBulletQuat (ops.getGlobalRotation transform))
    some centerOfMassWorldTrans

end Linked

/-! ## The class hierarchy as an interface -/

/-- The four concrete classes of `OpenGLMotionState.h`. -/
inductive MotionClass where
  | SimpleGlDynamic
  | SimpleGlKinematic
  | Dynamic
  | Kinematic
deriving DecidableEq, Repr

/-- A call of a public member function, with its arguments.  For `getWorldTransform`
and `getGLWorldTransform` the argument is what the output object holds before the
call. -/
inductive Call (S : Type) where
  | setWorldTransform (worldTrans : btTransform S)
  | getWorldTransform (worldTrans : btTransform S)
  | setKinematicPos (trans : btTransform S)
  | setUserPointer (userPointer : Nat)
  | getUserPointer
  | isDynamic
  | isKinematic
  | getGLWorldTransform (transform : Matrix44 S)

/-- What a call hands back (through its return value or its output argument). -/
inductive Ret (S : Type) where
  | void
  | transform (t : btTransform S)
  | matrix (m : Matrix44 S)
  | pointer (p : Nat)
  | bool (b : Bool)

/-- The motion state object together with the external nodes it may point to. -/
structure World (S T : Type) where
  self : PhyObjMotionState S
  heap : Heap T

/-- Whether the call is to `setWorldTransform`. -/
def Call.isSetWorldTransform {S : Type} : Call S → Bool
  | .setWorldTransform _ => true
  | _ => false

/-- The argument of a call to `setKinematicPos`, if it is one. -/
def Call.kinematicPos? {S : Type} : Call S → Option (btTransform S)
  | .setKinematicPos t => some t
  | _ => none

section Dispatch

variable {S T V Q : Type} [Ring S]

/-- The constructor of each class. -/
def MotionClass.new (cls : MotionClass) (initialPosition : btTransform S) :
    PhyObjMotionState S :=
  match cls with
  | .SimpleGlDynamic => SimpleGlDynamicMotionState.new initialPosition
  | .SimpleGlKinematic => SimpleGlKinematicMotionState.new initialPosition
  | .Dynamic => DynamicMotionState.new initialPosition
  | .Kinematic => KinematicMotionState.new initialPosition

/-- Whether the class has the member function: `setKinematicPos` is declared by the
two kinematic classes only, `getGLWorldTransform` by `SimpleGlDynamicMotionState`
only, everything else is inherited or overridden by all four. -/
def MotionClass.declares (cls : MotionClass) (c : Call S) : Bool :=
  match c, cls with
  | .setKinematicPos _, .SimpleGlKinematic => true
  | .setKinematicPos _, .Kinematic => true
  | .setKinematicPos _, _ => false
  | .getGLWorldTransform _, .SimpleGlDynamic => true
  | .getGLWorldTransform _, _ => false
  | _, _ => true

/-- One call on an object of class `cls`, resolved as C++ resolves it: the override
of the class where there is one, the inherited member otherwise.  The result is
`none` when the class has no such member or when the user pointer is dereferenced
without designating a node. -/
def MotionClass.call (ops : NodeOps T V Q) (io : Interop S V Q) (cls : MotionClass)
    (c : Call S) (w : World S T) : Option (World S T × Ret S) :=
  match c with
  | .setUserPointer userPointer =>
    some ({ w with self := w.self.setUserPointer userPointer }, .void)
  | .getUserPointer => some (w, .pointer w.self.getUserPointer)
  | .isDynamic => some (w, .bool w.self.isDynamic)
  | .isKinematic => some (w, .bool w.self.isKinematic)
  | .setWorldTransform worldTrans =>
    match cls with
    | .SimpleGlDynamic =>
      some ({ w with self := w.self.setWorldTransform worldTrans }, .void)
    | .SimpleGlKinematic =>
      some ({ w with self :=
        SimpleGlKinematicMotionState.setWorldTransform w.self worldTrans }, .void)
    | .Dynamic =>
      match DynamicMotionState.setWorldTransform ops io w.self w.heap worldTrans with
      | none => none
      | some (self, heap) => some (⟨self, heap⟩, .void)
    | .Kinematic =>
      some ({ w with self :=
        KinematicMotionState.setWorldTransform w.self worldTrans }, .void)
  | .getWorldTransform worldTrans =>
    match cls with
    | .SimpleGlDynamic => some (w, .transform w.self.getWorldTransform)
    | .SimpleGlKinematic =>
      some (w, .transform (SimpleGlKinematicMotionState.getWorldTransform w.self))
    | .Dynamic => some (w, .transform w.self.getWorldTransform)
    | .Kinematic =>
      match KinematicMotionState.getWorldTransform ops io w.self w.heap worldTrans with
      | none => none
      | some t => some (w, .transform t)
  | .setKinematicPos t =>
    match cls with
    | .SimpleGlKinematic =>
      some ({ w with self := SimpleGlKinematicMotionState.setKinematicPos w.self t }, .void)
    | .Kinematic =>
      some ({ w with self := KinematicMotionState.setKinematicPos w.self t }, .void)
    | _ => none
  | .getGLWorldTransform transform =>
    match cls with
    | .SimpleGlDynamic =>
      some (w, .matrix (SimpleGlDynamicMotionState.getGLWorldTransform w.self transform))
    | _ => none

/-- A sequence of calls made one after the other on the same object. -/
def MotionClass.run (ops : NodeOps T V Q) (io : Interop S V Q) (cls : MotionClass) :
    List (Call S) → World S T → Option (World S T)
  | [], w => some w
  | c :: cs, w =>
    match cls.call ops io c w with
    | none => none
    | some (w1, _) => MotionClass.run ops io cls cs w1

end Dispatch

/-! ## A sample instantiation

Integer scalars, Cinder-style vector and quaternion records and a small node type,
used to evaluate the definitions on concrete inputs. -/

/-- Cinder's `ci::Vec3`. -/
structure Vec3 (S : Type) where
  x : S
  y : S
  z : S
deriving DecidableEq, Repr

/-- Cinder's `ci::Quaternion`: scalar part `w` and vector part `v`. -/
structure Quat (S : Type) where
  w : S
  v : Vec3 S
deriving DecidableEq, Repr

/-- A node with a stored global translation and rotation and some further content. -/
structure SampleNode where
  mTranslation : Vec3 Int
  mRotation : Quat Int
  mName : Nat
deriving DecidableEq, Repr

/-- The setters of `SampleNode` store, its getters hand back what is stored. -/
def sampleOps : NodeOps SampleNode (Vec3 Int) (Quat Int) where
  setGlobalTranslation := fun n v => { n with mTranslation := v }
  setGlobalRotation := fun n q => { n with mRotation := q }
  getGlobalTranslation := fun n => n.mTranslation
  getGlobalRotation := fun n => n.mRotation

/-- Component-wise `fromBullet` / `toBullet`; the two rotation conversions are
integer stand-ins for Bullet's floating-point routines (the quaternion of a basis
without the square root, and the basis of a quaternion divided through by its
squared length), exact on the identity. -/
def sampleInterop : Interop Int (Vec3 Int) (Quat Int) where
  fromBulletVec := fun v => ⟨v.x, v.y, v.z⟩
  fromBulletQuat := fun q => ⟨q.w, ⟨q.x, q.y, q.z⟩⟩
  toBulletVec := fun v => ⟨v.x, v.y, v.z⟩
  toBulletQuat := fun q => ⟨q.v.x, q.v.y, q.v.z, q.w⟩
  basisGetRotation := fun m =>
    ⟨(m.el2.y - m.el1.z) / 4, (m.el0.z - m.el2.x) / 4, (m.el1.x - m.el0.y) / 4,
      (1 + m.el0.x + m.el1.y + m.el2.z) / 4⟩
  basisSetRotation := fun q =>
    let d := q.x * q.x + q.y * q.y + q.z * q.z + q.w * q.w
    ⟨⟨(d - 2 * (q.y * q.y + q.z * q.z)) / d, 2 * (q.x * q.y - q.w * q.z) / d,
        2 * (q.x * q.z + q.w * q.y) / d⟩,
      ⟨2 * (q.x * q.y + q.w * q.z) / d, (d - 2 * (q.x * q.x + q.z * q.z)) / d,
        2 * (q.y * q.z - q.w * q.x) / d⟩,
      ⟨2 * (q.x * q.z - q.w * q.y) / d, 2 * (q.y * q.z + q.w * q.x) / d,
        (d - 2 * (q.x * q.x + q.y * q.y)) / d⟩⟩

/-- The pure translation by `(x, y, z)`. -/
def translation {S : Type} [Ring S] (x y z : S) : btTransform S :=
  ⟨btMatrix3x3.getIdentity, ⟨x, y, z⟩⟩

/-- A node named `name` at translation `(x, y, z)` with no rotation. -/
def sampleNode (name : Nat) (x y z : Int) : SampleNode :=
  ⟨⟨x, y, z⟩, ⟨1, ⟨0, 0, 0⟩⟩, name⟩

/-- Two nodes: one at address `1`, placed at `(5, 5, 5)`, one at address `2`, placed
at `(7, 8, 9)`. -/
def sampleHeap : Heap SampleNode := fun a =>
  if a = 1 then some (sampleNode 10 5 5 5)
  else if a = 2 then some (sampleNode 20 7 8 9)
  else none

/-! ## Facts about the linear math -/

section Lemmas

variable {S T V Q : Type}

theorem btTransform.mul_getIdentity [Ring S] (X : btTransform S) :
    X.mul btTransform.getIdentity = X := by
  obtain ⟨⟨⟨a, b, c⟩, ⟨d, e, f⟩, ⟨g, h, i⟩⟩, ⟨x, y, z⟩⟩ := X
  simp [btTransform.mul, btTransform.getIdentity, btMatrix3x3.getIdentity,
    btMatrix3x3.mul, btMatrix3x3.tdotx, btMatrix3x3.tdoty, btMatrix3x3.tdotz,
    btTransform.apply, btMatrix3x3.mulVec, btVector3.dot, btVector3.add]

theorem btTransform.getIdentity_mul [Ring S] (X : btTransform S) :
    btTransform.getIdentity.mul X = X := by
  obtain ⟨⟨⟨a, b, c⟩, ⟨d, e, f⟩, ⟨g, h, i⟩⟩, ⟨x, y, z⟩⟩ := X
  simp [btTransform.mul, btTransform.getIdentity, btMatrix3x3.getIdentity,
    btMatrix3x3.mul, btMatrix3x3.tdotx, btMatrix3x3.tdoty, btMatrix3x3.tdotz,
    btTransform.apply, btMatrix3x3.mulVec, btVector3.dot, btVector3.add]

theorem btTransform.inverse_getIdentity [Ring S] :
    (btTransform.getIdentity : btTransform S).inverse = btTransform.getIdentity := by
  simp [btTransform.inverse, btTransform.getIdentity, btMatrix3x3.getIdentity,
    btMatrix3x3.transpose, btMatrix3x3.mulVec, btVector3.dot, btVector3.neg]

/-- Older Bullet releases compose the cached transform and the inverse offset in the
other order; with the identity offset the two orders agree. -/
theorem btDefaultMotionState.getWorldTransform_order [Ring S]
    (self : btDefaultMotionState S)
    (h : self.m_centerOfMassOffset = btTransform.getIdentity) :
    self.m_centerOfMassOffset.inverse.mul self.m_graphicsWorldTrans =
      self.getWorldTransform := by
  simp [btDefaultMotionState.getWorldTransform, h, btTransform.inverse_getIdentity,
    btTransform.mul_getIdentity, btTransform.getIdentity_mul]

/-- What `mPosition` held before the body of a derived constructor ran does not
matter. -/
theorem PhyObjMotionState.new_uninit [Ring S] (T0 uninit : btTransform S) :
    ({ PhyObjMotionState.new T0 true uninit with mPosition := T0 } =
      SimpleGlDynamicMotionState.new T0) ∧
    ({ PhyObjMotionState.new T0 false uninit with mPosition := T0 } =
      SimpleGlKinematicMotionState.new T0) ∧
    ({ PhyObjMotionState.new T0 true uninit with mPosition := T0 } =
      DynamicMotionState.new T0) ∧
    ({ PhyObjMotionState.new T0 false uninit with mPosition := T0 } =
      KinematicMotionState.new T0) :=
  ⟨rfl, rfl, rfl, rfl⟩

/-- With the identity centre-of-mass offset the default motion state reports its
cached transform unchanged. -/
theorem PhyObjMotionState.getWorldTransform_of_offset [Ring S] (self : PhyObjMotionState S)
    (h : self.m_centerOfMassOffset = btTransform.getIdentity) :
    self.getWorldTransform = self.m_graphicsWorldTrans := by
  simp [PhyObjMotionState.getWorldTransform, btDefaultMotionState.getWorldTransform, h,
    btTransform.inverse_getIdentity, btTransform.mul_getIdentity]

/-- With the identity centre-of-mass offset the default motion state caches the
transform it is given unchanged. -/
theorem PhyObjMotionState.setWorldTransform_of_offset [Ring S] (self : PhyObjMotionState S)
    (X : btTransform S) (h : self.m_centerOfMassOffset = btTransform.getIdentity) :
    (self.setWorldTransform X).m_graphicsWorldTrans = X := by
  simp [PhyObjMotionState.setWorldTransform, btDefaultMotionState.setWorldTransform, h,
    btTransform.mul_getIdentity]

/-- With the identity centre-of-mass offset, the inherited pair is a plain store and
load. -/
theorem PhyObjMotionState.getWorldTransform_setWorldTransform [Ring S]
    (self : PhyObjMotionState S) (X : btTransform S)
    (h : self.m_centerOfMassOffset = btTransform.getIdentity) :
    (self.setWorldTransform X).getWorldTransform = X := by
  have h1 : (self.setWorldTransform X).m_centerOfMassOffset = btTransform.getIdentity := h
  rw [PhyObjMotionState.getWorldTransform_of_offset _ h1,
    PhyObjMotionState.setWorldTransform_of_offset self X h]

/-- The linked dynamic write assigns no member of the motion state. -/
theorem DynamicMotionState.setWorldTransform_self (ops : NodeOps T V Q)
    (io : Interop S V Q) (self : PhyObjMotionState S) (heap : Heap T)
    (X : btTransform S) (p : PhyObjMotionState S × Heap T)
    (h : DynamicMotionState.setWorldTransform ops io self heap X = some p) :
    p.1 = self := by
  unfold DynamicMotionState.setWorldTransform at h
  cases hd : heap.deref self.m_userPointer with
  | none => simp [hd] at h
  | some N =>
    simp only [hd, Option.some.injEq] at h
    rw [← h]

/-- What a call does to the motion state object itself: a call either leaves it as it
is, or it is `setUserPointer`, or the inherited cached write of
`SimpleGlDynamicMotionState`, or `setKinematicPos` on a kinematic class. -/
theorem MotionClass.call_self [Ring S] (ops : NodeOps T V Q) (io : Interop S V Q)
    (cls : MotionClass) (c : Call S) (w w1 : World S T) (r : Ret S)
    (h : cls.call ops io c w = some (w1, r)) :
    (w1.self = w.self ∧ c.kinematicPos? = none) ∨
    (∃ p, c = .setUserPointer p ∧ w1.self = w.self.setUserPointer p) ∨
    (∃ X, c = .setWorldTransform X ∧ cls = .SimpleGlDynamic ∧
      w1.self = w.self.setWorldTransform X) ∨
    (∃ X, c = .setKinematicPos X ∧ cls.declares c = true ∧
      w1.self = { w.self with mPosition := X }) := by
  cases c <;> cases cls <;> simp only [MotionClass.call] at h
  all_goals try first
    | exact Option.noConfusion h
    | (cases h; simp [SimpleGlKinematicMotionState.setWorldTransform,
        KinematicMotionState.setWorldTransform, MotionClass.declares, Call.kinematicPos?,
        SimpleGlKinematicMotionState.setKinematicPos,
        KinematicMotionState.setKinematicPos])
  · rename_i X
    cases hset : DynamicMotionState.setWorldTransform ops io w.self w.heap X with
    | none => simp [hset] at h
    | some p =>
      have hp := DynamicMotionState.setWorldTransform_self ops io _ _ _ _ hset
      obtain ⟨s, hp2⟩ := p
      simp only [hset, Option.some.injEq, Prod.mk.injEq] at h
      obtain ⟨rfl, -⟩ := h
      exact Or.inl ⟨hp, rfl⟩
  · rename_i out
    cases hget : KinematicMotionState.getWorldTransform ops io w.self w.heap out with
    | none => simp [hget] at h
    | some t =>
      simp only [hget, Option.some.injEq, Prod.mk.injEq] at h
      obtain ⟨rfl, -⟩ := h
      exact Or.inl ⟨rfl, rfl⟩

/-- No call assigns the centre-of-mass offset. -/
theorem MotionClass.call_offset [Ring S] (ops : NodeOps T V Q) (io : Interop S V Q)
    (cls : MotionClass) (c : Call S) (w w1 : World S T) (r : Ret S)
    (h : cls.call ops io c w = some (w1, r)) :
    w1.self.m_centerOfMassOffset = w.self.m_centerOfMassOffset := by
  rcases MotionClass.call_self ops io cls c w w1 r h with
    ⟨h1, -⟩ | ⟨p, -, h1⟩ | ⟨X, -, -, h1⟩ | ⟨X, -, -, h1⟩ <;> rw [h1] <;> rfl

/-- No call assigns the mode flag. -/
theorem MotionClass.call_mDynamic [Ring S] (ops : NodeOps T V Q) (io : Interop S V Q)
    (cls : MotionClass) (c : Call S) (w w1 : World S T) (r : Ret S)
    (h : cls.call ops io c w = some (w1, r)) :
    w1.self.mDynamic = w.self.mDynamic := by
  rcases MotionClass.call_self ops io cls c w w1 r h with
    ⟨h1, -⟩ | ⟨p, -, h1⟩ | ⟨X, -, -, h1⟩ | ⟨X, -, -, h1⟩ <;> rw [h1] <;> rfl

/-- Only the inherited `setWorldTransform` of `SimpleGlDynamicMotionState` assigns
the transform cached in the base object. -/
theorem MotionClass.call_graphics [Ring S] (ops : NodeOps T V Q) (io : Interop S V Q)
    (cls : MotionClass) (c : Call S) (w w1 : World S T) (r : Ret S)
    (h : cls.call ops io c w = some (w1, r))
    (hc : cls ≠ .SimpleGlDynamic ∨ c.isSetWorldTransform = false) :
    w1.self.m_graphicsWorldTrans = w.self.m_graphicsWorldTrans := by
  rcases MotionClass.call_self ops io cls c w w1 r h with
    ⟨h1, -⟩ | ⟨p, -, h1⟩ | ⟨X, hX, hcls, h1⟩ | ⟨X, -, -, h1⟩
  · rw [h1]
  · rw [h1]; rfl
  · subst hX
    rcases hc with hc | hc
    · exact absurd hcls hc
    · simp [Call.isSetWorldTransform] at hc
  · rw [h1]

/-- Only `setKinematicPos` assigns `mPosition`. -/
theorem MotionClass.call_mPosition [Ring S] (ops : NodeOps T V Q) (io : Interop S V Q)
    (cls : MotionClass) (c : Call S) (w w1 : World S T) (r : Ret S)
    (h : cls.call ops io c w = some (w1, r)) :
    w1.self.mPosition = (c.kinematicPos?).getD w.self.mPosition := by
  rcases MotionClass.call_self ops io cls c w w1 r h with
    ⟨h1, hk⟩ | ⟨p, hp, h1⟩ | ⟨X, hX, -, h1⟩ | ⟨X, hX, -, h1⟩
  · rw [h1, hk]; rfl
  · subst hp; rw [h1]; rfl
  · subst hX; rw [h1]; rfl
  · subst hX; rw [h1]; rfl

theorem MotionClass.run_append [Ring S] (ops : NodeOps T V Q) (io : Interop S V Q)
    (cls : MotionClass) (cs ds : List (Call S)) (w : World S T) :
    cls.run ops io (cs ++ ds) w = (cls.run ops io cs w).bind (cls.run ops io ds) := by
  induction cs generalizing w with
  | nil => rfl
  | cons c cs ih =>
    simp only [List.cons_append, MotionClass.run]
    cases cls.call ops io c w with
    | none => rfl
    | some p => exact ih p.1

/-- On the two cached classes every declared call is defined. -/
theorem MotionClass.call_simple_defined [Ring S] (ops : NodeOps T V Q)
    (io : Interop S V Q) (cls : MotionClass)
    (hcls : cls = .SimpleGlDynamic ∨ cls = .SimpleGlKinematic) (c : Call S)
    (hc : cls.declares c = true) (w : World S T) :
    ∃ p, cls.call ops io c w = some p := by
  rcases hcls with rfl | rfl <;> cases c <;>
    simp [MotionClass.call, MotionClass.declares] at hc ⊢

/-- On the two cached classes every sequence of declared calls is defined. -/
theorem MotionClass.run_simple_defined [Ring S] (ops : NodeOps T V Q)
    (io : Interop S V Q) (cls : MotionClass)
    (hcls : cls = .SimpleGlDynamic ∨ cls = .SimpleGlKinematic) (cs : List (Call S))
    (hcs : ∀ c ∈ cs, cls.declares c = true) (w : World S T) :
    ∃ w1, cls.run ops io cs w = some w1 := by
  induction cs generalizing w with
  | nil => exact ⟨w, rfl⟩
  | cons c cs ih =>
    obtain ⟨p, hp⟩ := MotionClass.call_simple_defined ops io cls hcls c
      (hcs c (List.mem_cons_self c cs)) w
    obtain ⟨w1, hw1⟩ := ih (fun d hd => hcs d (List.mem_cons_of_mem c hd)) p.1
    exact ⟨w1, by simp only [MotionClass.run, hp]; exact hw1⟩

/-- A sequence of calls never assigns the centre-of-mass offset. -/
theorem MotionClass.run_offset [Ring S] (ops : NodeOps T V Q) (io : Interop S V Q)
    (cls : MotionClass) (cs : List (Call S)) (w w1 : World S T)
    (h : cls.run ops io cs w = some w1) :
    w1.self.m_centerOfMassOffset = w.self.m_centerOfMassOffset := by
  induction cs generalizing w with
  | nil => simp only [MotionClass.run, Option.some.injEq] at h; rw [← h]
  | cons c cs ih =>
    simp only [MotionClass.run] at h
    cases hc : cls.call ops io c w with
    | none => simp [hc] at h
    | some p =>
      simp only [hc] at h
      rw [ih p.1 h, MotionClass.call_offset ops io cls c w p.1 p.2 hc]

/-- A sequence of calls never assigns the mode flag. -/
theorem MotionClass.run_mDynamic [Ring S] (ops : NodeOps T V Q) (io : Interop S V Q)
    (cls : MotionClass) (cs : List (Call S)) (w w1 : World S T)
    (h : cls.run ops io cs w = some w1) :
    w1.self.mDynamic = w.self.mDynamic := by
  induction cs generalizing w with
  | nil => simp only [MotionClass.run, Option.some.injEq] at h; rw [← h]
  | cons c cs ih =>
    simp only [MotionClass.run] at h
    cases hc : cls.call ops io c w with
    | none => simp [hc] at h
    | some p =>
      simp only [hc] at h
      rw [ih p.1 h, MotionClass.call_mDynamic ops io cls c w p.1 p.2 hc]

/-- A sequence of calls that does not go through the inherited cached write leaves
the transform cached in the base object as it is. -/
theorem MotionClass.run_graphics [Ring S] (ops : NodeOps T V Q) (io : Interop S V Q)
    (cls : MotionClass) (cs : List (Call S)) (w w1 : World S T)
    (h : cls.run ops io cs w = some w1)
    (hcs : cls ≠ .SimpleGlDynamic ∨ ∀ c ∈ cs, c.isSetWorldTransform = false) :
    w1.self.m_graphicsWorldTrans = w.self.m_graphicsWorldTrans := by
  induction cs generalizing w with
  | nil => simp only [MotionClass.run, Option.some.injEq] at h; rw [← h]
  | cons c cs ih =>
    simp only [MotionClass.run] at h
    cases hc : cls.call ops io c w with
    | none => simp [hc] at h
    | some p =>
      simp only [hc] at h
      have hhead : cls ≠ .SimpleGlDynamic ∨ c.isSetWorldTransform = false :=
        hcs.imp id (fun hall => hall c (List.mem_cons_self c cs))
      have htail : cls ≠ .SimpleGlDynamic ∨ ∀ d ∈ cs, d.isSetWorldTransform = false :=
        hcs.imp id (fun hall d hd => hall d (List.mem_cons_of_mem c hd))
      rw [ih p.1 h htail, MotionClass.call_graphics ops io cls c w p.1 p.2 hc hhead]

/-- After a sequence of calls `mPosition` holds the argument of the last
`setKinematicPos` among them, or what it held before when there is none. -/
theorem MotionClass.run_mPosition [Ring S] (ops : NodeOps T V Q) (io : Interop S V Q)
    (cls : MotionClass) (cs : List (Call S)) (w w1 : World S T)
    (h : cls.run ops io cs w = some w1) :
    w1.self.mPosition = ((cs.filterMap Call.kinematicPos?).getLast?).getD w.self.mPosition := by
  induction cs generalizing w with
  | nil => simp only [MotionClass.run, Option.some.injEq] at h; rw [← h]; rfl
  | cons c cs ih =>
    simp only [MotionClass.run] at h
    cases hc : cls.call ops io c w with
    | none => simp [hc] at h
    | some p =>
      simp only [hc] at h
      rw [ih p.1 h, MotionClass.call_mPosition ops io cls c w p.1 p.2 hc]
      cases hk : c.kinematicPos? with
      | none => simp [List.filterMap_cons, hk]
      | some X =>
        simp only [List.filterMap_cons, hk, Option.getD_some]
        cases hl : (cs.filterMap Call.kinematicPos?) with
        | nil => simp
        | cons a l =>
          rw [List.getLast?_cons_cons, List.getLast?_eq_getLast (a :: l) (List.cons_ne_nil a l)]
          rfl

theorem Call.filterMap_kinematicPos_filter (cs : List (Call S)) :
    (cs.filter fun c => !c.isSetWorldTransform).filterMap Call.kinematicPos? =
      cs.filterMap Call.kinematicPos? := by
  rw [List.filterMap_filter]
  congr 1
  funext c
  cases c <;> rfl

end Lemmas

/-! ## The cached classes -/

section Cached

variable {S T V Q : Type} [Ring S]

/-- C1: on a `SimpleGlDynamicMotionState`, whatever transform `T0` it was constructed
with and whatever calls `pre` were made before, after `setWorldTransform(X)` the
query `getWorldTransform` hands back exactly `X`, also after any further calls `post`
none of which is `setWorldTransform`; the object is not changed by the query.  The
pair is the inherited one, with the identity centre-of-mass offset set up by
`PhyObjMotionState( transform, true )`. -/
theorem simpleGlDynamic_getWorldTransform_after_set (ops : NodeOps T V Q)
    (io : Interop S V Q) (T0 X out : btTransform S) (heap : Heap T)
    (pre post : List (Call S))
    (hpre : ∀ c ∈ pre, MotionClass.SimpleGlDynamic.declares c = true)
    (hpost : ∀ c ∈ post,
      MotionClass.SimpleGlDynamic.declares c = true ∧ c.isSetWorldTransform = false) :
    ∃ w, MotionClass.run ops io .SimpleGlDynamic (pre ++ .setWorldTransform X :: post)
          ⟨SimpleGlDynamicMotionState.new T0, heap⟩ = some w ∧
      w.self.m_centerOfMassOffset = btTransform.getIdentity ∧
      MotionClass.call ops io .SimpleGlDynamic (.getWorldTransform out) w =
        some (w, .transform X) := by
  obtain ⟨w1, h1⟩ := MotionClass.run_simple_defined ops io .SimpleGlDynamic (Or.inl rfl)
    pre hpre ⟨SimpleGlDynamicMotionState.new T0, heap⟩
  have ho1 : w1.self.m_centerOfMassOffset = btTransform.getIdentity := by
    rw [MotionClass.run_offset ops io _ pre _ w1 h1]; rfl
  obtain ⟨w3, h3⟩ := MotionClass.run_simple_defined ops io .SimpleGlDynamic (Or.inl rfl)
    post (fun c hc => (hpost c hc).1) { w1 with self := w1.self.setWorldTransform X }
  have ho3 : w3.self.m_centerOfMassOffset = btTransform.getIdentity := by
    rw [MotionClass.run_offset ops io _ post _ w3 h3]; exact ho1
  have hg3 : w3.self.m_graphicsWorldTrans = X := by
    rw [MotionClass.run_graphics ops io _ post _ w3 h3
      (Or.inr fun c hc => (hpost c hc).2)]
    exact PhyObjMotionState.setWorldTransform_of_offset w1.self X ho1
  refine ⟨w3, ?_, ho3, ?_⟩
  · rw [MotionClass.run_append, h1]
    simpa [MotionClass.run, MotionClass.call] using h3
  · simp only [MotionClass.call]
    rw [PhyObjMotionState.getWorldTransform_of_offset w3.self ho3, hg3]

/-- C1, evaluated: constructed at the translation `(4, 4, 4)`, written once with
`(9, 9, 9)`, then `setWorldTransform` with `(1, 2, 3)` followed by queries and a
`setUserPointer`. -/
theorem simpleGlDynamic_getWorldTransform_after_set_witness :
    (∀ c ∈ [Call.setWorldTransform (translation 9 9 9), Call.getUserPointer],
      MotionClass.SimpleGlDynamic.declares (S := Int) c = true) ∧
    (∀ c ∈ [Call.getWorldTransform (translation 0 0 0), Call.setUserPointer 2,
        Call.getGLWorldTransform ⟨fun _ => 0⟩, Call.isDynamic, Call.isKinematic,
        Call.getUserPointer],
      MotionClass.SimpleGlDynamic.declares (S := Int) c = true ∧
        c.isSetWorldTransform = false) ∧
    ∃ w, MotionClass.run sampleOps sampleInterop .SimpleGlDynamic
          ([Call.setWorldTransform (translation 9 9 9), Call.getUserPointer] ++
            .setWorldTransform (translation 1 2 3) ::
            [Call.getWorldTransform (translation 0 0 0), Call.setUserPointer 2,
              Call.getGLWorldTransform ⟨fun _ => 0⟩, Call.isDynamic, Call.isKinematic,
              Call.getUserPointer])
          ⟨SimpleGlDynamicMotionState.new (translation 4 4 4), sampleHeap⟩ = some w ∧
      w.self.m_centerOfMassOffset = btTransform.getIdentity ∧
      MotionClass.call sampleOps sampleInterop .SimpleGlDynamic
          (.getWorldTransform (translation 0 0 0)) w =
        some (w, .transform (translation 1 2 3)) :=
  ⟨by decide, by decide,
    simpleGlDynamic_getWorldTransform_after_set sampleOps sampleInterop
      (translation 4 4 4) (translation 1 2 3) (translation 0 0 0) sampleHeap _ _
      (by decide) (by decide)⟩

/-- C2: on both kinematic classes `setWorldTransform(X)` does nothing: the object
(cached `mPosition`, mode flag, user pointer, inherited members) and every external
node are exactly as before, and so `getWorldTransform` hands back the same transform
right after the call as right before it. -/
theorem kinematic_setWorldTransform_noop (ops : NodeOps T V Q) (io : Interop S V Q)
    (w : World S T) (X out : btTransform S) :
    SimpleGlKinematicMotionState.setWorldTransform w.self X = w.self ∧
    KinematicMotionState.setWorldTransform w.self X = w.self ∧
    MotionClass.call ops io .SimpleGlKinematic (.setWorldTransform X) w =
      some (w, .void) ∧
    MotionClass.call ops io .Kinematic (.setWorldTransform X) w = some (w, .void) ∧
    (MotionClass.call ops io .SimpleGlKinematic (.setWorldTransform X) w).bind
        (fun p => MotionClass.call ops io .SimpleGlKinematic (.getWorldTransform out) p.1) =
      MotionClass.call ops io .SimpleGlKinematic (.getWorldTransform out) w ∧
    (MotionClass.call ops io .Kinematic (.setWorldTransform X) w).bind
        (fun p => MotionClass.call ops io .Kinematic (.getWorldTransform out) p.1) =
      MotionClass.call ops io .Kinematic (.getWorldTransform out) w :=
  ⟨rfl, rfl, rfl, rfl, rfl, rfl⟩

/-- C3: on a `SimpleGlKinematicMotionState` constructed with `T0`, after any finite
sequence of calls the class declares (in particular `setKinematicPos`,
`setWorldTransform`, `setUserPointer`, `getWorldTransform`), `getWorldTransform`
hands back the argument of the most recent `setKinematicPos`, or `T0` when there was
none; the arguments of `setWorldTransform` play no part, and indeed the answer is the
same when the `setWorldTransform` calls are left out of the sequence. -/
theorem simpleGlKinematic_getWorldTransform_last_setKinematicPos (ops : NodeOps T V Q)
    (io : Interop S V Q) (T0 out : btTransform S) (heap : Heap T) (cs : List (Call S))
    (hcs : ∀ c ∈ cs, MotionClass.SimpleGlKinematic.declares c = true) :
    (∃ w, MotionClass.run ops io .SimpleGlKinematic cs
          ⟨SimpleGlKinematicMotionState.new T0, heap⟩ = some w ∧
      MotionClass.call ops io .SimpleGlKinematic (.getWorldTransform out) w =
        some (w, .transform (((cs.filterMap Call.kinematicPos?).getLast?).getD T0))) ∧
    (∃ w, MotionClass.run ops io .SimpleGlKinematic
          (cs.filter fun c => !c.isSetWorldTransform)
          ⟨SimpleGlKinematicMotionState.new T0, heap⟩ = some w ∧
      MotionClass.call ops io .SimpleGlKinematic (.getWorldTransform out) w =
        some (w, .transform (((cs.filterMap Call.kinematicPos?).getLast?).getD T0))) := by
  have key : ∀ ds : List (Call S),
      (∀ c ∈ ds, MotionClass.SimpleGlKinematic.declares c = true) →
      ∃ w, MotionClass.run ops io .SimpleGlKinematic ds
          ⟨SimpleGlKinematicMotionState.new T0, heap⟩ = some w ∧
        MotionClass.call ops io .SimpleGlKinematic (.getWorldTransform out) w =
          some (w, .transform (((ds.filterMap Call.kinematicPos?).getLast?).getD T0)) := by
    intro ds hds
    obtain ⟨w, hw⟩ := MotionClass.run_simple_defined ops io .SimpleGlKinematic
      (Or.inr rfl) ds hds ⟨SimpleGlKinematicMotionState.new T0, heap⟩
    refine ⟨w, hw, ?_⟩
    simp only [MotionClass.call, SimpleGlKinematicMotionState.getWorldTransform]
    rw [MotionClass.run_mPosition ops io _ ds _ w hw]
    rfl
  refine ⟨key cs hcs, ?_⟩
  have h := key (cs.filter fun c => !c.isSetWorldTransform)
    (fun c hc => hcs c (List.mem_of_mem_filter hc))
  rwa [Call.filterMap_kinematicPos_filter] at h

/-- C3, evaluated: constructed at `(4, 4, 4)`; two `setKinematicPos` calls with
`setWorldTransform`, `setUserPointer` and `getWorldTransform` in between. -/
theorem simpleGlKinematic_getWorldTransform_last_setKinematicPos_witness :
    (∀ c ∈ [Call.setWorldTransform (translation 9 9 9),
        Call.setKinematicPos (translation 1 1 1), Call.setUserPointer 2,
        Call.setKinematicPos (translation 1 2 3),
        Call.getWorldTransform (translation 0 0 0),
        Call.setWorldTransform (translation 8 8 8)],
      MotionClass.SimpleGlKinematic.declares (S := Int) c = true) ∧
    ((∃ w, MotionClass.run sampleOps sampleInterop .SimpleGlKinematic
          [Call.setWorldTransform (translation 9 9 9),
            Call.setKinematicPos (translation 1 1 1), Call.setUserPointer 2,
            Call.setKinematicPos (translation 1 2 3),
            Call.getWorldTransform (translation 0 0 0),
            Call.setWorldTransform (translation 8 8 8)]
          ⟨SimpleGlKinematicMotionState.new (translation 4 4 4), sampleHeap⟩ = some w ∧
      MotionClass.call sampleOps sampleInterop .SimpleGlKinematic
          (.getWorldTransform (translation 0 0 0)) w =
        some (w, .transform (translation 1 2 3))) ∧
    (∃ w, MotionClass.run sampleOps sampleInterop .SimpleGlKinematic
          [Call.setKinematicPos (translation 1 1 1), Call.setUserPointer 2,
            Call.setKinematicPos (translation 1 2 3),
            Call.getWorldTransform (translation 0 0 0)]
          ⟨SimpleGlKinematicMotionState.new (translation 4 4 4), sampleHeap⟩ = some w ∧
      MotionClass.call sampleOps sampleInterop .SimpleGlKinematic
          (.getWorldTransform (translation 0 0 0)) w =
        some (w, .transform (translation 1 2 3)))) :=
  ⟨by decide,
    simpleGlKinematic_getWorldTransform_last_setKinematicPos sampleOps sampleInterop
      (translation 4 4 4) (translation 0 0 0) sampleHeap _ (by decide)⟩

/-- C7: `getGLWorldTransform` of a `SimpleGlDynamicMotionState` fills the output
matrix with the column-major OpenGL form of the transform that `getWorldTransform`
hands back at that moment (elements 12, 13, 14: translation; 0-2, 4-6, 8-10: the
columns of the basis; 3, 7, 11: zero; 15: one) and leaves the object as it is.
Scenario: constructed with the identity, then `setWorldTransform` with the
translation `(1, 2, 3)`: both queries show that translation and no rotation. -/
theorem simpleGlDynamic_getGLWorldTransform_columnMajor (ops : NodeOps T V Q)
    (io : Interop S V Q) (self : PhyObjMotionState S) (heap : Heap T)
    (transform : Matrix44 S) (out : btTransform S) :
    MotionClass.call ops io .SimpleGlDynamic (.getGLWorldTransform transform) ⟨self, heap⟩ =
      some (⟨self, heap⟩,
        .matrix (SimpleGlDynamicMotionState.getGLWorldTransform self transform)) ∧
    MotionClass.call ops io .SimpleGlDynamic (.getWorldTransform out) ⟨self, heap⟩ =
      some (⟨self, heap⟩, .transform self.getWorldTransform) ∧
    (SimpleGlDynamicMotionState.getGLWorldTransform self transform).m =
      ![self.getWorldTransform.m_basis.el0.x, self.getWorldTransform.m_basis.el1.x,
        self.getWorldTransform.m_basis.el2.x, 0,
        self.getWorldTransform.m_basis.el0.y, self.getWorldTransform.m_basis.el1.y,
        self.getWorldTransform.m_basis.el2.y, 0,
        self.getWorldTransform.m_basis.el0.z, self.getWorldTransform.m_basis.el1.z,
        self.getWorldTransform.m_basis.el2.z, 0,
        self.getWorldTransform.m_origin.x, self.getWorldTransform.m_origin.y,
        self.getWorldTransform.m_origin.z, 1] ∧
    ((SimpleGlDynamicMotionState.getGLWorldTransform self transform).m 12 =
        self.getWorldTransform.m_origin.x ∧
      (SimpleGlDynamicMotionState.getGLWorldTransform self transform).m 13 =
        self.getWorldTransform.m_origin.y ∧
      (SimpleGlDynamicMotionState.getGLWorldTransform self transform).m 14 =
        self.getWorldTransform.m_origin.z ∧
      (SimpleGlDynamicMotionState.getGLWorldTransform self transform).m 3 = 0 ∧
      (SimpleGlDynamicMotionState.getGLWorldTransform self transform).m 7 = 0 ∧
      (SimpleGlDynamicMotionState.getGLWorldTransform self transform).m 11 = 0 ∧
      (SimpleGlDynamicMotionState.getGLWorldTransform self transform).m 15 = 1) ∧
    (∃ w, MotionClass.run ops io .SimpleGlDynamic [.setWorldTransform (translation 1 2 3)]
          ⟨SimpleGlDynamicMotionState.new btTransform.getIdentity, heap⟩ = some w ∧
      MotionClass.call ops io .SimpleGlDynamic (.getWorldTransform out) w =
        some (w, .transform ⟨⟨⟨1, 0, 0⟩, ⟨0, 1, 0⟩, ⟨0, 0, 1⟩⟩, ⟨1, 2, 3⟩⟩) ∧
      MotionClass.call ops io .SimpleGlDynamic (.getGLWorldTransform transform) w =
        some (w, .matrix ⟨![1, 0, 0, 0, 0, 1, 0, 0, 0, 0, 1, 0, 1, 2, 3, 1]⟩)) := by
  refine ⟨rfl, rfl, rfl, ⟨rfl, rfl, rfl, rfl, rfl, rfl, rfl⟩, ?_⟩
  have hval : ((SimpleGlDynamicMotionState.new (btTransform.getIdentity : btTransform S)
      ).setWorldTransform (translation 1 2 3)).getWorldTransform = translation 1 2 3 :=
    PhyObjMotionState.getWorldTransform_setWorldTransform _ _ rfl
  refine ⟨⟨(SimpleGlDynamicMotionState.new btTransform.getIdentity).setWorldTransform
    (translation 1 2 3), heap⟩, rfl, ?_, ?_⟩
  · simp only [MotionClass.call, hval]
    rfl
  · simp only [MotionClass.call, SimpleGlDynamicMotionState.getGLWorldTransform, hval]
    rfl

/-- C10: the matrix conversion used by `getGLWorldTransform` loses nothing: reading
the translation back from elements 12..14 and the basis back from the upper-left
3x3 block of the matrix gives the transform that was converted, and two transforms
with the same matrix are equal. -/
theorem getOpenGLMatrix_roundtrip (t : btTransform S) (transform : Matrix44 S) :
    btTransform.setFromOpenGLMatrix (transform.set t.getOpenGLMatrix).m = t ∧
    (⟨(transform.set t.getOpenGLMatrix).m 12, (transform.set t.getOpenGLMatrix).m 13,
      (transform.set t.getOpenGLMatrix).m 14⟩ : btVector3 S) = t.m_origin ∧
    (⟨⟨(transform.set t.getOpenGLMatrix).m 0, (transform.set t.getOpenGLMatrix).m 4,
        (transform.set t.getOpenGLMatrix).m 8⟩,
      ⟨(transform.set t.getOpenGLMatrix).m 1, (transform.set t.getOpenGLMatrix).m 5,
        (transform.set t.getOpenGLMatrix).m 9⟩,
      ⟨(transform.set t.getOpenGLMatrix).m 2, (transform.set t.getOpenGLMatrix).m 6,
        (transform.set t.getOpenGLMatrix).m 10⟩⟩ : btMatrix3x3 S) = t.m_basis ∧
    Function.Injective (fun u : btTransform S => (transform.set u.getOpenGLMatrix).m) := by
  refine ⟨rfl, rfl, rfl, ?_⟩
  intro u v h
  have hu : btTransform.setFromOpenGLMatrix (transform.set u.getOpenGLMatrix).m = u := rfl
  have hv : btTransform.setFromOpenGLMatrix (transform.set v.getOpenGLMatrix).m = v := rfl
  rw [← hu, ← hv]
  exact congrArg btTransform.setFromOpenGLMatrix h

end Cached

/-! ## The linked classes -/

section LinkedFacts

variable {S T V Q : Type}

theorem sampleOps_lawful : sampleOps.Lawful :=
  ⟨fun _ _ => rfl, fun _ _ => rfl, fun _ _ => rfl, fun _ _ => rfl⟩

theorem Heap.deref_store (heap : Heap T) (p : Nat) (N N1 : T)
    (h : heap.deref p = some N) : (heap.store p N1).deref p = some N1 := by
  unfold Heap.deref at h ⊢
  by_cases hp : p = 0
  · simp [hp] at h
  · simp [hp, Heap.store]

theorem Heap.store_other (heap : Heap T) (p a : Nat) (N1 : T) (h : a ≠ p) :
    (heap.store p N1) a = heap a := by
  simp [Heap.store, h]

/-- The linked kinematic query, when the user pointer designates the node `N`. -/
theorem KinematicMotionState.getWorldTransform_of_deref (ops : NodeOps T V Q)
    (io : Interop S V Q) (self : PhyObjMotionState S) (heap : Heap T) (N : T)
    (out : btTransform S) (hN : heap.deref self.m_userPointer = some N) :
    KinematicMotionState.getWorldTransform ops io self heap out =
      some ⟨io.basisSetRotation (io.toBulletQuat (ops.getGlobalRotation N)),
        io.toBulletVec (ops.getGlobalTranslation N)⟩ := by
  simp only [KinematicMotionState.getWorldTransform, hN, btTransform.setRotation,
    btTransform.setOrigin]

/-- The linked dynamic write, when the user pointer designates the node `N`. -/
theorem DynamicMotionState.setWorldTransform_of_deref (ops : NodeOps T V Q)
    (io : Interop S V Q) (self : PhyObjMotionState S) (heap : Heap T) (N : T)
    (P : btTransform S) (hN : heap.deref self.m_userPointer = some N) :
    DynamicMotionState.setWorldTransform ops io self heap P =
      some (self, heap.store self.m_userPointer
        (ops.setGlobalRotation
          (ops.setGlobalTranslation N (io.fromBulletVec P.m_origin))
          (io.fromBulletQuat (io.basisGetRotation P.m_basis)))) := by
  simp only [DynamicMotionState.setWorldTransform, hN, btTransform.getOrigin,
    btTransform.getRotation]

/-- C4: on a `DynamicMotionState<T>` whose user pointer was last set to the address
`p` of the node `N`, `setWorldTransform(P)` succeeds; afterwards the node at `p` is
`N` with `setGlobalTranslation( fromBullet( P.getOrigin() ) )` and then
`setGlobalRotation( fromBullet( P.getRotation() ) )` applied and nothing else, so
(the getters handing back what the setters stored) its translation getter gives
`fromBullet` of the origin of `P` and its rotation getter gives `fromBullet` of the
rotation of `P`; no other node changes and the motion state is exactly as before. -/
theorem dynamicLinked_setWorldTransform_writes_node [Ring S] (ops : NodeOps T V Q)
    (hops : ops.Lawful) (io : Interop S V Q) (self0 : PhyObjMotionState S)
    (heap : Heap T) (p : Nat) (N : T) (P : btTransform S)
    (hN : heap.deref p = some N) :
    ∃ heap1 N1,
      DynamicMotionState.setWorldTransform ops io (self0.setUserPointer p) heap P =
        some (self0.setUserPointer p, heap1) ∧
      MotionClass.call ops io .Dynamic (.setWorldTransform P)
          ⟨self0.setUserPointer p, heap⟩ =
        some (⟨self0.setUserPointer p, heap1⟩, .void) ∧
      heap1.deref p = some N1 ∧
      N1 = ops.setGlobalRotation
        (ops.setGlobalTranslation N (io.fromBulletVec P.getOrigin))
        (io.fromBulletQuat (P.getRotation io)) ∧
      ops.getGlobalTranslation N1 = io.fromBulletVec P.m_origin ∧
      ops.getGlobalRotation N1 = io.fromBulletQuat (io.basisGetRotation P.m_basis) ∧
      ∀ a, a ≠ p → heap1 a = heap a := by
  have hset := DynamicMotionState.setWorldTransform_of_deref ops io
    (self0.setUserPointer p) heap N P hN
  refine ⟨_, _, hset, ?_, Heap.deref_store heap p N _ hN, rfl, ?_, ?_, ?_⟩
  · simp only [MotionClass.call, hset]
  · rw [hops.translation_keep, hops.translation_set]
  · rw [hops.rotation_set]
  · intro a ha
    exact Heap.store_other heap p a _ ha

/-- C4, evaluated: the node at address `1` (placed at `(5, 5, 5)`) receives the pose
`(1, 2, 3)`. -/
theorem dynamicLinked_setWorldTransform_writes_node_witness :
    sampleOps.Lawful ∧ sampleHeap.deref 1 = some (sampleNode 10 5 5 5) ∧
    ∃ heap1 N1,
      DynamicMotionState.setWorldTransform sampleOps sampleInterop
          ((DynamicMotionState.new (translation 4 4 4)).setUserPointer 1) sampleHeap
          (translation 1 2 3) =
        some ((DynamicMotionState.new (translation 4 4 4)).setUserPointer 1, heap1) ∧
      MotionClass.call sampleOps sampleInterop .Dynamic
          (.setWorldTransform (translation 1 2 3))
          ⟨(DynamicMotionState.new (translation 4 4 4)).setUserPointer 1, sampleHeap⟩ =
        some (⟨(DynamicMotionState.new (translation 4 4 4)).setUserPointer 1, heap1⟩,
          .void) ∧
      heap1.deref 1 = some N1 ∧
      N1 = sampleOps.setGlobalRotation
        (sampleOps.setGlobalTranslation (sampleNode 10 5 5 5)
          (sampleInterop.fromBulletVec (translation 1 2 3).getOrigin))
        (sampleInterop.fromBulletQuat ((translation 1 2 3).getRotation sampleInterop)) ∧
      sampleOps.getGlobalTranslation N1 =
        sampleInterop.fromBulletVec (translation 1 2 3).m_origin ∧
      sampleOps.getGlobalRotation N1 =
        sampleInterop.fromBulletQuat
          (sampleInterop.basisGetRotation (translation 1 2 3).m_basis) ∧
      ∀ a, a ≠ 1 → heap1 a = sampleHeap a :=
  ⟨sampleOps_lawful, by decide,
    dynamicLinked_setWorldTransform_writes_node sampleOps sampleOps_lawful sampleInterop
      (DynamicMotionState.new (translation 4 4 4)) sampleHeap 1 (sampleNode 10 5 5 5)
      (translation 1 2 3) (by decide)⟩

/-- C5: on a `KinematicMotionState<T>` whose user pointer designates the node `N`,
`getWorldTransform` reports the transform whose origin is `toBullet` of the current
global translation of `N` and whose rotation is set from `toBullet` of its current
global rotation; the motion state and the nodes are as before.  Hence after the
application has set translation `v` and rotation `q` on the node, the next query
reports `v` and `q`; and the report is the same for any motion state with the same
user pointer, any previous contents of the output argument, and any node with the
same translation and rotation. -/
theorem kinematicLinked_getWorldTransform_reads_node [Ring S] (ops : NodeOps T V Q)
    (hops : ops.Lawful) (io : Interop S V Q) (self : PhyObjMotionState S)
    (heap : Heap T) (N : T) (out : btTransform S)
    (hN : heap.deref self.m_userPointer = some N) :
    KinematicMotionState.getWorldTransform ops io self heap out =
      some ⟨io.basisSetRotation (io.toBulletQuat (ops.getGlobalRotation N)),
        io.toBulletVec (ops.getGlobalTranslation N)⟩ ∧
    MotionClass.call ops io .Kinematic (.getWorldTransform out) ⟨self, heap⟩ =
      some (⟨self, heap⟩,
        .transform ⟨io.basisSetRotation (io.toBulletQuat (ops.getGlobalRotation N)),
          io.toBulletVec (ops.getGlobalTranslation N)⟩) ∧
    (∀ (v : V) (q : Q),
      KinematicMotionState.getWorldTransform ops io self
          (heap.store self.m_userPointer
            (ops.setGlobalRotation (ops.setGlobalTranslation N v) q)) out =
        some ⟨io.basisSetRotation (io.toBulletQuat q), io.toBulletVec v⟩) ∧
    (∀ (self1 : PhyObjMotionState S) (heap1 : Heap T) (N1 : T) (out1 : btTransform S),
      heap1.deref self1.m_userPointer = some N1 →
      ops.getGlobalTranslation N1 = ops.getGlobalTranslation N →
      ops.getGlobalRotation N1 = ops.getGlobalRotation N →
      KinematicMotionState.getWorldTransform ops io self1 heap1 out1 =
        KinematicMotionState.getWorldTransform ops io self heap out) := by
  have hget := KinematicMotionState.getWorldTransform_of_deref ops io self heap N out hN
  refine ⟨hget, ?_, ?_, ?_⟩
  · simp only [MotionClass.call, hget]
  · intro v q
    rw [KinematicMotionState.getWorldTransform_of_deref ops io self _ _ out
      (Heap.deref_store heap _ N _ hN), hops.rotation_set, hops.translation_keep,
      hops.translation_set]
  · intro self1 heap1 N1 out1 h1 ht hr
    rw [hget, KinematicMotionState.getWorldTransform_of_deref ops io self1 heap1 N1 out1 h1,
      ht, hr]

/-- C5, evaluated: a kinematic state constructed at `(4, 4, 4)` and pointed at the
node of address `2` reports that node, which is placed at `(7, 8, 9)`. -/
theorem kinematicLinked_getWorldTransform_reads_node_witness :
    sampleOps.Lawful ∧
    sampleHeap.deref ((KinematicMotionState.new (translation 4 4 4 : btTransform Int)
      ).setUserPointer 2).m_userPointer = some (sampleNode 20 7 8 9) ∧
    KinematicMotionState.getWorldTransform sampleOps sampleInterop
        ((KinematicMotionState.new (translation 4 4 4)).setUserPointer 2) sampleHeap
        (translation 0 0 0) = some (translation 7 8 9) :=
  ⟨sampleOps_lawful, by decide,
    (kinematicLinked_getWorldTransform_reads_node sampleOps sampleOps_lawful sampleInterop
      ((KinematicMotionState.new (translation 4 4 4)).setUserPointer 2) sampleHeap
      (sampleNode 20 7 8 9) (translation 0 0 0) (by decide)).1⟩

/-- C8 (amended): on a `DynamicMotionState<T>` constructed with `T0`, in any state
reached from construction in which the user pointer designates a node `N`,
`getWorldTransform` hands back `T0`; `setWorldTransform(X)` succeeds, changes no
member of the motion state, and `getWorldTransform` still hands back `T0`
afterwards.  The written pose goes to the external node only: the node behind the
user pointer becomes `N` with `setGlobalTranslation( fromBullet( X.getOrigin() ) )`
and then `setGlobalRotation( fromBullet( X.getRotation() ) )` applied, and every
other node is as before. -/
theorem dynamicLinked_getWorldTransform_keeps_initial [Ring S] (ops : NodeOps T V Q)
    (io : Interop S V Q) (T0 X out : btTransform S) (heap : Heap T)
    (cs : List (Call S)) (w : World S T) (N : T)
    (hrun : MotionClass.run ops io .Dynamic cs ⟨DynamicMotionState.new T0, heap⟩ = some w)
    (hN : w.heap.deref w.self.m_userPointer = some N) :
    MotionClass.call ops io .Dynamic (.getWorldTransform out) w =
      some (w, .transform T0) ∧
    ∃ heap1,
      MotionClass.call ops io .Dynamic (.setWorldTransform X) w =
        some (⟨w.self, heap1⟩, .void) ∧
      MotionClass.call ops io .Dynamic (.getWorldTransform out) ⟨w.self, heap1⟩ =
        some (⟨w.self, heap1⟩, .transform T0) ∧
      heap1 = w.heap.store w.self.m_userPointer
        (ops.setGlobalRotation
          (ops.setGlobalTranslation N (io.fromBulletVec X.getOrigin))
          (io.fromBulletQuat (X.getRotation io))) ∧
      heap1.deref w.self.m_userPointer =
        some (ops.setGlobalRotation
          (ops.setGlobalTranslation N (io.fromBulletVec X.getOrigin))
          (io.fromBulletQuat (X.getRotation io))) ∧
      ∀ a, a ≠ w.self.m_userPointer → heap1 a = w.heap a := by
  have ho : w.self.m_centerOfMassOffset = btTransform.getIdentity := by
    rw [MotionClass.run_offset ops io _ cs _ w hrun]; rfl
  have hg : w.self.m_graphicsWorldTrans = T0 := by
    rw [MotionClass.run_graphics ops io _ cs _ w hrun (Or.inl (by decide))]; rfl
  have hget : w.self.getWorldTransform = T0 := by
    rw [PhyObjMotionState.getWorldTransform_of_offset w.self ho, hg]
  have hset := DynamicMotionState.setWorldTransform_of_deref ops io w.self w.heap N X hN
  refine ⟨?_, ⟨w.heap.store w.self.m_userPointer
    (ops.setGlobalRotation (ops.setGlobalTranslation N (io.fromBulletVec X.m_origin))
      (io.fromBulletQuat (io.basisGetRotation X.m_basis))), ?_, ?_, rfl, ?_, ?_⟩⟩
  · simp only [MotionClass.call, hget]
  · simp only [MotionClass.call, hset]
  · simp only [MotionClass.call]
    exact congrArg (fun t => some (_, Ret.transform t)) hget
  · exact Heap.deref_store w.heap _ N _ hN
  · intro a ha
    exact Heap.store_other w.heap _ a _ ha

/-- C8 (amended), evaluated: constructed at `(4, 4, 4)` and pointed at the node of
address `1` (named `10`, placed at `(5, 5, 5)`); after `setWorldTransform` with
`(1, 2, 3)` the query still gives `(4, 4, 4)`, the node of address `1` is placed at
`(1, 2, 3)` and keeps its name, the node of address `2` is untouched. -/
theorem dynamicLinked_getWorldTransform_keeps_initial_witness :
    MotionClass.run sampleOps sampleInterop .Dynamic [.setUserPointer 1]
        ⟨DynamicMotionState.new (translation 4 4 4), sampleHeap⟩ =
      some ⟨(DynamicMotionState.new (translation 4 4 4)).setUserPointer 1, sampleHeap⟩ ∧
    sampleHeap.deref 1 = some (sampleNode 10 5 5 5) ∧
    ∃ heap1,
      MotionClass.call sampleOps sampleInterop .Dynamic
          (.setWorldTransform (translation 1 2 3))
          ⟨(DynamicMotionState.new (translation 4 4 4)).setUserPointer 1, sampleHeap⟩ =
        some (⟨(DynamicMotionState.new (translation 4 4 4)).setUserPointer 1, heap1⟩,
          .void) ∧
      MotionClass.call sampleOps sampleInterop .Dynamic
          (.getWorldTransform (translation 0 0 0))
          ⟨(DynamicMotionState.new (translation 4 4 4)).setUserPointer 1, heap1⟩ =
        some (⟨(DynamicMotionState.new (translation 4 4 4)).setUserPointer 1, heap1⟩,
          .transform (translation 4 4 4)) ∧
      heap1 = sampleHeap.store 1 (sampleNode 10 1 2 3) ∧
      heap1.deref 1 = some (sampleNode 10 1 2 3) ∧
      ∀ a, a ≠ 1 → heap1 a = sampleHeap a :=
  ⟨rfl, by decide,
    (dynamicLinked_getWorldTransform_keeps_initial sampleOps sampleInterop
      (translation 4 4 4) (translation 1 2 3) (translation 0 0 0) sampleHeap
      [.setUserPointer 1]
      ⟨(DynamicMotionState.new (translation 4 4 4)).setUserPointer 1, sampleHeap⟩
      (sampleNode 10 5 5 5) rfl (by decide)).2⟩

/-- C8 as stated fails: a `DynamicMotionState<SampleNode>` constructed with the
identity and pointed at the node of address `1` is dynamic, its user pointer
designates a node, and after `setWorldTransform` with the translation `(1, 2, 3)`
the query `getWorldTransform` hands back the identity, not `(1, 2, 3)`. -/
theorem dynamicLinked_getWorldTransform_after_set_counterexample :
    ∃ w : World Int SampleNode,
      MotionClass.run sampleOps sampleInterop .Dynamic
          [.setUserPointer 1, .setWorldTransform (translation 1 2 3)]
          ⟨DynamicMotionState.new btTransform.getIdentity, sampleHeap⟩ = some w ∧
      w.self.isDynamic = true ∧
      (w.heap.deref w.self.m_userPointer).isSome = true ∧
      MotionClass.call sampleOps sampleInterop .Dynamic
          (.getWorldTransform btTransform.getIdentity) w =
        some (w, .transform btTransform.getIdentity) ∧
      MotionClass.call sampleOps sampleInterop .Dynamic
          (.getWorldTransform btTransform.getIdentity) w ≠
        some (w, .transform (translation 1 2 3)) := by
  refine ⟨_, rfl, rfl, by decide, rfl, ?_⟩
  intro h
  have h2 := congrArg (fun o => o.map fun p => match p.2 with
    | .transform t => t.m_origin.x
    | _ => 0) h
  revert h2
  decide

/-- C9, the code at the failing input: a `KinematicMotionState<SampleNode>`
constructed with the identity and pointed at the node of address `1` (placed at
`(5, 5, 5)`) is kinematic and its user pointer designates a node; after
`setKinematicPos` with the translation `(1, 2, 3)` the member `mPosition` holds
`(1, 2, 3)`, yet `getWorldTransform` reports `(5, 5, 5)` and not `(1, 2, 3)`.  The
sibling class `SimpleGlKinematicMotionState`, given the same calls, reports
`(1, 2, 3)`. -/
theorem kinematicLinked_setKinematicPos_not_reported :
    (∃ w : World Int SampleNode,
      MotionClass.run sampleOps sampleInterop .Kinematic
          [.setUserPointer 1, .setKinematicPos (translation 1 2 3)]
          ⟨KinematicMotionState.new btTransform.getIdentity, sampleHeap⟩ = some w ∧
      w.self.isKinematic = true ∧
      (w.heap.deref w.self.m_userPointer).isSome = true ∧
      w.self.mPosition = translation 1 2 3 ∧
      MotionClass.call sampleOps sampleInterop .Kinematic
          (.getWorldTransform btTransform.getIdentity) w =
        some (w, .transform (translation 5 5 5)) ∧
      MotionClass.call sampleOps sampleInterop .Kinematic
          (.getWorldTransform btTransform.getIdentity) w ≠
        some (w, .transform (translation 1 2 3))) ∧
    (∃ w : World Int SampleNode,
      MotionClass.run sampleOps sampleInterop .SimpleGlKinematic
          [.setUserPointer 1, .setKinematicPos (translation 1 2 3)]
          ⟨SimpleGlKinematicMotionState.new btTransform.getIdentity, sampleHeap⟩ =
        some w ∧
      MotionClass.call sampleOps sampleInterop .SimpleGlKinematic
          (.getWorldTransform btTransform.getIdentity) w =
        some (w, .transform (translation 1 2 3))) := by
  refine ⟨⟨_, rfl, rfl, by decide, rfl, rfl, ?_⟩, ⟨_, rfl, rfl⟩⟩
  intro h
  have h2 := congrArg (fun o => o.map fun p => match p.2 with
    | .transform t => t.m_origin.x
    | _ => 0) h
  revert h2
  decide

end LinkedFacts

/-! ## The mode flag -/

section Mode

variable {S T V Q : Type} [Ring S]

/-- C6: the mode is fixed by the constructor and never changes.  The two dynamic
classes are constructed with `isDynamic() = true`, the two kinematic classes with
`isDynamic() = false`; in every state `w` reached from the constructor of a class by
a sequence of calls, `isDynamic()` is what the constructor set and `isKinematic()`
is its negation; every call that can be made in such a state leaves the flag as it
is; and `setKinematicPos` is declared by, and defined on, exactly the classes
constructed as kinematic. -/
theorem mode_fixed_at_construction (ops : NodeOps T V Q) (io : Interop S V Q)
    (cls : MotionClass) (T0 X : btTransform S) (heap : Heap T) (cs : List (Call S))
    (w : World S T)
    (hrun : cls.run ops io cs ⟨cls.new T0, heap⟩ = some w) :
    (SimpleGlDynamicMotionState.new T0).isDynamic = true ∧
    (DynamicMotionState.new T0).isDynamic = true ∧
    (SimpleGlKinematicMotionState.new T0).isDynamic = false ∧
    (KinematicMotionState.new T0).isDynamic = false ∧
    w.self.isDynamic = (cls.new T0).isDynamic ∧
    w.self.isKinematic = !w.self.isDynamic ∧
    cls.call ops io .isDynamic w = some (w, .bool (cls.new T0).isDynamic) ∧
    cls.call ops io .isKinematic w = some (w, .bool (!(cls.new T0).isDynamic)) ∧
    (∀ c w1 r, cls.call ops io c w = some (w1, r) →
      w1.self.isDynamic = w.self.isDynamic ∧ w1.self.isKinematic = w.self.isKinematic) ∧
    (cls.declares (Call.setKinematicPos X) = true ↔ (cls.new T0).isDynamic = false) ∧
    (cls.call ops io (.setKinematicPos X) w).isSome = !(cls.new T0).isDynamic := by
  have hflag : w.self.mDynamic = (cls.new T0).mDynamic :=
    MotionClass.run_mDynamic ops io cls cs _ w hrun
  refine ⟨rfl, rfl, rfl, rfl, hflag, rfl, ?_, ?_, ?_, ?_, ?_⟩
  · simp only [MotionClass.call, PhyObjMotionState.isDynamic, hflag]
  · simp only [MotionClass.call, PhyObjMotionState.isKinematic,
      PhyObjMotionState.isDynamic, hflag]
  · intro c w1 r hc
    have h1 := MotionClass.call_mDynamic ops io cls c w w1 r hc
    simp only [PhyObjMotionState.isDynamic, PhyObjMotionState.isKinematic, h1, and_self]
  · cases cls <;>
      simp [MotionClass.declares, MotionClass.new, PhyObjMotionState.isDynamic,
        SimpleGlDynamicMotionState.new, SimpleGlKinematicMotionState.new,
        DynamicMotionState.new, KinematicMotionState.new, PhyObjMotionState.new]
  · cases cls <;> rfl

/-- C6, evaluated: a `KinematicMotionState<SampleNode>` after `setUserPointer`,
`setKinematicPos`, `setWorldTransform` and `getWorldTransform` is still kinematic. -/
theorem mode_fixed_at_construction_witness :
    MotionClass.run sampleOps sampleInterop .Kinematic
        [.setUserPointer 1, .setKinematicPos (translation 1 2 3),
          .setWorldTransform (translation 9 9 9), .getWorldTransform (translation 0 0 0)]
        ⟨MotionClass.Kinematic.new (translation 4 4 4), sampleHeap⟩ =
      some ⟨KinematicMotionState.setKinematicPos
        ((KinematicMotionState.new (translation 4 4 4)).setUserPointer 1)
        (translation 1 2 3), sampleHeap⟩ ∧
    (KinematicMotionState.setKinematicPos
      ((KinematicMotionState.new (translation 4 4 4 : btTransform Int)).setUserPointer 1)
      (translation 1 2 3)).isDynamic = false :=
  ⟨rfl,
    (mode_fixed_at_construction sampleOps sampleInterop .Kinematic (translation 4 4 4)
      (translation 1 2 3) sampleHeap
      [.setUserPointer 1, .setKinematicPos (translation 1 2 3),
        .setWorldTransform (translation 9 9 9), .getWorldTransform (translation 0 0 0)]
      ⟨KinematicMotionState.setKinematicPos
        ((KinematicMotionState.new (translation 4 4 4)).setUserPointer 1)
        (translation 1 2 3), sampleHeap⟩ rfl).2.2.2.2.1⟩

end Mode

end bullet
